import Mathlib

/-!
Shallow embedding of the angela-blog application (src/main.py): data model
(User, BlogPost, Comment), credential handling, session state, the decorator
chain guarding the post-mutating routes, and the request handlers the claims
are about. Handlers are modelled as pure state transformers over an explicit
database value; Python faults (TypeError, KeyError, SQL integrity errors)
become an explicit `fault` response.
-/

namespace AngelaBlog

/-- Modelled from the spec: the output of werkzeug.security.generate_password_hash
(an external library, not part of src/). The spec describes it as a salted
one-way derivation with method pbkdf2:sha256 and an explicit salt. The byte
derivation itself is modelled as the injective combination of salt and
password, standing in for PBKDF2-HMAC-SHA256; the spec presupposes this
binding in its round-trip property. -/
structure Hash where
  method : String
  salt : List Char
  digest : List Char
deriving DecidableEq, Repr

/-- Modelled from the spec: werkzeug generate_password_hash(password, method, salt_length).
The random salt is passed in explicitly. Mirrors src/main.py:118. -/
def generate_password_hash (salt : List Char) (password : String) : Hash :=
  { method := "pbkdf2:sha256", salt := salt, digest := salt ++ password.data }

/-- Modelled from the spec: werkzeug check_password_hash recomputes the
derivation with the stored method and salt and compares digests. -/
def check_password_hash (pwhash : Hash) (password : String) : Bool :=
  pwhash.method == "pbkdf2:sha256" && pwhash.digest == pwhash.salt ++ password.data

/-- The Users table (src/main.py:44-54). -/
structure User where
  id : Nat
  email : String
  password : Hash
  name : String
deriving DecidableEq, Repr

/-- The blog_posts table (src/main.py:27-41). -/
structure BlogPost where
  id : Nat
  author_id : Nat
  title : String
  subtitle : String
  date : String
  body : String
  img_url : String
deriving DecidableEq, Repr

/-- The comments table (src/main.py:58-65). -/
structure Comment where
  id : Nat
  author_id : Nat
  text : String
  post_id : Nat
deriving DecidableEq, Repr

/-- The relational store: the three tables plus the auto-increment counters
for their integer primary keys. -/
structure DB where
  users : List User
  posts : List BlogPost
  comments : List Comment
  nextUserId : Nat
  nextPostId : Nat
  nextCommentId : Nat
deriving DecidableEq, Repr

/-- Flask-Login session state: current_user is either the anonymous user
(is_active and is_authenticated are False) or a logged-in user with an id
(is_active and is_authenticated are True). -/
inductive Session where
  | anonymous
  | loggedIn (uid : Nat)
deriving DecidableEq, Repr

/-- What a request handler produces: a rendered template (with the error
message passed to it, if any), a redirect to an endpoint (with the error
query parameter, if any), an HTTP abort, an uncaught Python exception, or
Python None (a handler falling off the end of a branch). -/
inductive Response where
  | render (template : String) (error : Option String)
  | redirectTo (endpoint : String) (error : Option String)
  | httpAbort (code : Nat)
  | fault (exn : String)
  | pyNone
deriving DecidableEq, Repr

/-- CreatePostForm data (title, subtitle, body, img_url) as submitted. -/
structure PostForm where
  title : String
  subtitle : String
  body : String
  img_url : String
deriving DecidableEq, Repr

/-- Per-request inputs a guarded handler reads besides the URL arguments:
the CreatePostForm when validate_on_submit succeeds (none when it does not),
and the formatted current date. -/
structure Request where
  postForm : Option PostForm
  today : String
deriving DecidableEq, Repr

/-- A Python view function as Flask calls it: its declared parameter count
(the URL arguments it accepts), whether it takes *args/**kwargs instead
(variadic), and its body. -/
structure Handler where
  arity : Nat
  variadic : Bool
  run : Request → DB → Session → List Nat → DB × Response

/-- Calling a Python function: the argument count must match the declared
parameters (unless variadic), otherwise the call itself raises TypeError
before the body executes. -/
def Handler.call (h : Handler) (req : Request) (db : DB) (s : Session) (args : List Nat) :
    DB × Response :=
  if h.variadic ∨ args.length = h.arity then h.run req db s args
  else (db, .fault "TypeError: argument count mismatch")

/-- The admin_only decorator (src/main.py:82-92). Its wrapper declares NO
parameters (def wrapper():), checks current_user.id == 1, and calls the
wrapped function with no arguments. On the anonymous user, current_user has
no id attribute, so the access itself would raise. -/
def admin_only (f : Handler) : Handler :=
  { arity := 0
    variadic := false
    run := fun req db s _ =>
      match s with
      | .loggedIn uid =>
          if uid = 1 then f.call req db s []
          else (db, .httpAbort 403)
      | .anonymous => (db, .fault "AttributeError: anonymous user has no id") }

/-- Flask-Login login_required: its decorated_view takes *args/**kwargs and
forwards them. The LoginManager in src/main.py sets no login_view, so an
unauthenticated request is rejected with 401 Unauthorized. -/
def login_required (f : Handler) : Handler :=
  { arity := 0
    variadic := true
    run := fun req db s args =>
      match s with
      | .anonymous => (db, .httpAbort 401)
      | .loggedIn _ => f.call req db s args }

/-- GET / : list all posts (src/main.py:100-104). -/
def get_all_posts (db : DB) : List BlogPost :=
  db.posts

/-- POST /register (src/main.py:107-126): look up the email; if free, hash
the password, persist a new User, and log it in; otherwise redisplay the
login form with a duplicate-email message. Returns the new store, session,
and response. -/
def register_post (db : DB) (s : Session) (name password email : String) (salt : List Char) :
    DB × Session × Response :=
  match db.users.find? (fun u => u.email == email) with
  | none =>
      let encrypt_password := generate_password_hash salt password
      let new_user : User :=
        { id := db.nextUserId, email := email, password := encrypt_password, name := name }
      ({ db with users := db.users ++ [new_user], nextUserId := db.nextUserId + 1 },
       .loggedIn new_user.id,
       .redirectTo "get_all_posts" none)
  | some _ =>
      (db, s,
       .render "login.html" (some "You have already signed up with that email, log in instead!"))

/-- POST /login (src/main.py:134-147): unknown email and wrong password each
redisplay the login form with their own message; a verifying password logs
the user in. Returns the session and response. -/
def login_post (db : DB) (s : Session) (email password : String) : Session × Response :=
  match db.users.find? (fun u => u.email == email) with
  | none =>
      (s, .render "login.html" (some "the Email you entered doesn\x27t exist, please try again!"))
  | some user =>
      if check_password_hash user.password password then
        (.loggedIn user.id, .redirectTo "get_all_posts" none)
      else
        (s, .render "login.html" (some "Password Incorrect, Please try again!"))

/-- GET /login (src/main.py:148-150): error = request.args["error"] reads the
query parameter unconditionally; when it is absent werkzeug raises
BadRequestKeyError instead of rendering the form. -/
def login_get (args_error : Option String) : Response :=
  match args_error with
  | none => .fault "BadRequestKeyError: error"
  | some e => .render "login.html" (some e)

/-- GET /logout (src/main.py:153-156). -/
def logout (_s : Session) : Session × Response :=
  (Session.anonymous, .redirectTo "get_all_posts" none)

/-- POST /post/<post_id> (src/main.py:168-177): an active (logged-in) user
with a validating CommentForm gets a new Comment persisted with author_id =
current_user.id and post_id from the URL (the post is never looked up); a
non-validating form falls off the end (None); an anonymous user is
redirected to the login page with an explanatory message. `valid` is
comment_form.validate_on_submit(). -/
def show_post_post (db : DB) (s : Session) (post_id : Nat) (text : String) (valid : Bool) :
    DB × Response :=
  match s with
  | .loggedIn uid =>
      if valid then
        let new_comment : Comment :=
          { id := db.nextCommentId, author_id := uid, text := text, post_id := post_id }
        ({ db with comments := db.comments ++ [new_comment],
                   nextCommentId := db.nextCommentId + 1 },
         .redirectTo "get_all_posts" none)
      else (db, .pyNone)
  | .anonymous =>
      (db, .redirectTo "login"
        (some "You need to logged first in in order to be able to add comments!"))

/-- Body of add_new_post (src/main.py:193-207): on a validating form, persist
a BlogPost authored by current_user; the unique title column makes the
insert of a duplicate title fail at commit. The anonymous case is
unreachable through the decorators. -/
def add_new_post_run (req : Request) (db : DB) (s : Session) (_args : List Nat) :
    DB × Response :=
  match s with
  | .anonymous => (db, .fault "AttributeError: anonymous user has no id")
  | .loggedIn uid =>
      match req.postForm with
      | some f =>
          if db.posts.any (fun p => p.title == f.title) then
            (db, .fault "IntegrityError: UNIQUE constraint failed: blog_posts.title")
          else
            let new_post : BlogPost :=
              { id := db.nextPostId, author_id := uid, title := f.title,
                subtitle := f.subtitle, date := req.today, body := f.body,
                img_url := f.img_url }
            ({ db with posts := db.posts ++ [new_post], nextPostId := db.nextPostId + 1 },
             .redirectTo "get_all_posts" none)
      | none => (db, .render "make-post.html" none)

/-- Body of edit_post (src/main.py:213-231): requires one URL argument
post_id; a missing post makes the attribute reads on None raise; on a
validating form the post fields are updated in place. (The source also
assigns the author field from a form field; the route never reaches this
body, see the arity of admin_only.) -/
def edit_post_run (req : Request) (db : DB) (_s : Session) (args : List Nat) :
    DB × Response :=
  match args with
  | [post_id] =>
      match db.posts.find? (fun p => p.id == post_id) with
      | none => (db, .fault "AttributeError: NoneType has no attribute title")
      | some _ =>
          match req.postForm with
          | some f =>
              ({ db with posts := db.posts.map (fun p =>
                   if p.id == post_id then
                     { p with title := f.title, subtitle := f.subtitle,
                              img_url := f.img_url, body := f.body }
                   else p) },
               .redirectTo "show_post" none)
          | none => (db, .render "make-post.html" none)
  | _ => (db, .fault "TypeError: argument count mismatch")

/-- Body of delete_post (src/main.py:237-241): requires one URL argument
post_id; BlogPost.query.get of a missing id yields None and
db.session.delete(None) raises; otherwise the row is deleted. -/
def delete_post_run (_req : Request) (db : DB) (_s : Session) (args : List Nat) :
    DB × Response :=
  match args with
  | [post_id] =>
      match db.posts.find? (fun p => p.id == post_id) with
      | none => (db, .fault "UnmappedInstanceError: NoneType is not mapped")
      | some _ =>
          ({ db with posts := db.posts.filter (fun p => p.id != post_id) },
           .redirectTo "get_all_posts" none)
  | _ => (db, .fault "TypeError: argument count mismatch")

/-- add_new_post as a Python function: it declares no parameters. -/
def add_new_post : Handler :=
  { arity := 0, variadic := false, run := add_new_post_run }

/-- edit_post as a Python function: it declares one parameter, post_id. -/
def edit_post : Handler :=
  { arity := 1, variadic := false, run := edit_post_run }

/-- delete_post as a Python function: it declares one parameter, post_id. -/
def delete_post : Handler :=
  { arity := 1, variadic := false, run := delete_post_run }

/-- The registered view for POST /new-post: login_required over admin_only
over add_new_post (src/main.py:190-192). -/
def new_post_route : Handler :=
  login_required (admin_only add_new_post)

/-- The registered view for GET /edit-post/<post_id> (src/main.py:210-212). -/
def edit_post_route : Handler :=
  login_required (admin_only edit_post)

/-- The registered view for GET /delete/<post_id> (src/main.py:234-236). -/
def delete_post_route : Handler :=
  login_required (admin_only delete_post)

/-- Whole-application state: the store and the current session. -/
structure ServerState where
  db : DB
  session : Session
deriving DecidableEq, Repr

/-- The empty store with SQLite auto-increment counters starting at 1, and
an anonymous session. -/
def initialState : ServerState :=
  { db := { users := [], posts := [], comments := [], nextUserId := 1,
            nextPostId := 1, nextCommentId := 1 },
    session := .anonymous }

/-- One in-scope request, with the nondeterministic inputs (form data,
random salt, date, form validation outcome) made explicit. -/
inductive Op where
  | registerOp (name password email : String) (salt : List Char)
  | loginOp (email password : String)
  | logoutOp
  | newPost (form : Option PostForm) (today : String)
  | editPost (post_id : Nat) (form : Option PostForm)
  | deletePost (post_id : Nat)
  | addComment (post_id : Nat) (text : String) (valid : Bool)
deriving DecidableEq, Repr

/-- Serving one request: dispatch the operation to its handler (through the
registered decorator chain for the admin routes) and keep the resulting
store and session. -/
def step (st : ServerState) : Op → ServerState
  | .registerOp name password email salt =>
      let r := register_post st.db st.session name password email salt
      { db := r.1, session := r.2.1 }
  | .loginOp email password =>
      let r := login_post st.db st.session email password
      { st with session := r.1 }
  | .logoutOp =>
      { st with session := (logout st.session).1 }
  | .newPost form today =>
      let r := new_post_route.call { postForm := form, today := today } st.db st.session []
      { st with db := r.1 }
  | .editPost post_id form =>
      let r := edit_post_route.call { postForm := form, today := "" } st.db st.session [post_id]
      { st with db := r.1 }
  | .deletePost post_id =>
      let r := delete_post_route.call { postForm := none, today := "" } st.db st.session [post_id]
      { st with db := r.1 }
  | .addComment post_id text valid =>
      let r := show_post_post st.db st.session post_id text valid
      { st with db := r.1 }

/-- Serving a sequence of requests from the initial state. -/
def runOps (st : ServerState) (ops : List Op) : ServerState :=
  ops.foldl step st

/-- The referential-integrity property of spec section 3, as a boolean check
on a store: every Post's author and every Comment's author name an existing
User, and every Comment's parent post names an existing BlogPost. -/
def refIntegrity (db : DB) : Bool :=
  db.posts.all (fun p => db.users.any (fun u => u.id == p.author_id)) &&
  db.comments.all (fun c => db.users.any (fun u => u.id == c.author_id)) &&
  db.comments.all (fun c => db.posts.any (fun p => p.id == c.post_id))

/-- Every Post and every Comment in the store names an existing User as its
author (the author half of the spec's referential invariant). -/
def authorRefsOk (db : DB) : Prop :=
  (∀ p ∈ db.posts, ∃ u ∈ db.users, u.id = p.author_id) ∧
  (∀ c ∈ db.comments, ∃ u ∈ db.users, u.id = c.author_id)

/-- The session, when authenticated, names an existing User. -/
def sessionOk (st : ServerState) : Prop :=
  ∀ uid : Nat, st.session = .loggedIn uid → ∃ u ∈ st.db.users, u.id = uid

/-- The inductive invariant maintained by every request. -/
def Inv (st : ServerState) : Prop :=
  authorRefsOk st.db ∧ sessionOk st

/-- A sample registered user for concrete witness checks. -/
def userA : User :=
  { id := 1, email := "a@x.com", password := generate_password_hash "sa".data "pw1", name := "A" }

/-- A sample store containing only userA. -/
def dbA : DB :=
  { users := [userA], posts := [], comments := [], nextUserId := 2,
    nextPostId := 1, nextCommentId := 1 }

/-- Two sample posts authored by userA. -/
def postP : BlogPost :=
  { id := 1, author_id := 1, title := "T1", subtitle := "S", date := "D", body := "B",
    img_url := "U" }

/-- Second sample post, distinct id and title. -/
def postQ : BlogPost :=
  { id := 2, author_id := 1, title := "T2", subtitle := "S", date := "D", body := "B",
    img_url := "U" }

/-- A sample store with one user and two posts. -/
def dbPosts : DB :=
  { users := [userA], posts := [postP, postQ], comments := [], nextUserId := 2,
    nextPostId := 3, nextCommentId := 1 }

/-- An empty request (no validated form). -/
def req0 : Request :=
  { postForm := none, today := "" }

/-- A second sample registered user, with the non-bootstrap id 2. -/
def userB : User :=
  { id := 2, email := "b@x.com", password := generate_password_hash "sb".data "pw2", name := "B" }

/-- A sample store with two users and two posts. -/
def dbTwo : DB :=
  { users := [userA, userB], posts := [postP, postQ], comments := [], nextUserId := 3,
    nextPostId := 3, nextCommentId := 1 }

section Lemmas

/-- Any route of the shape login_required (admin_only f) with f requiring one
URL argument leaves the store untouched, whoever calls it: the anonymous
caller is stopped by login_required, and any authenticated caller hits the
arity mismatch between the zero-parameter wrapper and the one URL argument. -/
theorem guarded_call_db_eq (f : Handler) (h0 : f.variadic = false) (h1 : f.arity = 1)
    (req : Request) (db : DB) (s : Session) (args : List Nat) :
    ((login_required (admin_only f)).call req db s args).1 = db := by
  cases s with
  | anonymous => simp [login_required, Handler.call]
  | loggedIn uid =>
      cases args with
      | nil =>
          by_cases h : uid = 1 <;>
            simp [login_required, admin_only, Handler.call, h0, h1, h]
      | cons a l =>
          simp [login_required, admin_only, Handler.call]

/-- An authenticated request to such a route always produces the TypeError
fault from the argument count mismatch, before admin_only ever inspects the
user id. -/
theorem guarded_call_loggedIn_fault (f : Handler)
    (req : Request) (db : DB) (uid : Nat) (post_id : Nat) :
    ((login_required (admin_only f)).call req db (.loggedIn uid) [post_id]).2 =
      .fault "TypeError: argument count mismatch" := by
  simp [login_required, admin_only, Handler.call]

/-- An anonymous request to such a route is stopped by login_required with
401 Unauthorized. -/
theorem guarded_call_anonymous (f : Handler)
    (req : Request) (db : DB) (args : List Nat) :
    ((login_required (admin_only f)).call req db .anonymous args).2 = .httpAbort 401 := by
  simp [login_required, Handler.call]

/-- The store is untouched by any request to the edit route. -/
theorem edit_route_db_eq (req : Request) (db : DB) (s : Session) (args : List Nat) :
    (edit_post_route.call req db s args).1 = db :=
  guarded_call_db_eq edit_post rfl rfl req db s args

/-- The store is untouched by any request to the delete route. -/
theorem delete_route_db_eq (req : Request) (db : DB) (s : Session) (args : List Nat) :
    (delete_post_route.call req db s args).1 = db :=
  guarded_call_db_eq delete_post rfl rfl req db s args

/-- The create route with the admin logged in runs the add_new_post body. -/
theorem new_post_route_admin_run (req : Request) (db : DB) :
    new_post_route.call req db (.loggedIn 1) [] = add_new_post_run req db (.loggedIn 1) [] := by
  simp [new_post_route, login_required, admin_only, add_new_post, Handler.call]

/-- The create route rejects any authenticated non-admin with 403, leaving
the store unchanged. -/
theorem new_post_route_nonadmin (req : Request) (db : DB) (uid : Nat) (h : uid ≠ 1) :
    new_post_route.call req db (.loggedIn uid) [] = (db, .httpAbort 403) := by
  simp [new_post_route, login_required, admin_only, Handler.call, h]

/-- The create route rejects the anonymous user with 401, leaving the store
unchanged. -/
theorem new_post_route_anonymous (req : Request) (db : DB) :
    new_post_route.call req db .anonymous [] = (db, .httpAbort 401) := by
  simp [new_post_route, login_required, Handler.call]

/-- Serving any single request preserves the author-reference invariant and
the validity of the session. -/
theorem step_preserves_inv (st : ServerState) (op : Op) (h : Inv st) : Inv (step st op) := by
  obtain ⟨db, sess⟩ := st
  obtain ⟨⟨hposts, hcomments⟩, hsess⟩ := h
  cases op with
  | registerOp name password email salt =>
      cases hf : db.users.find? (fun u => u.email == email) with
      | some u =>
          simp only [step, register_post, hf]
          exact ⟨⟨hposts, hcomments⟩, hsess⟩
      | none =>
          simp only [step, register_post, hf]
          refine ⟨⟨?_, ?_⟩, ?_⟩
          · intro p hp
            obtain ⟨u, hu, hid⟩ := hposts p hp
            exact ⟨u, List.mem_append_left _ hu, hid⟩
          · intro c hc
            obtain ⟨u, hu, hid⟩ := hcomments c hc
            exact ⟨u, List.mem_append_left _ hu, hid⟩
          · intro uid huid
            injection huid with huid
            exact ⟨_, List.mem_append_right _ (List.mem_singleton_self _), huid⟩
  | loginOp email password =>
      cases hf : db.users.find? (fun u => u.email == email) with
      | none =>
          simp only [step, login_post, hf]
          exact ⟨⟨hposts, hcomments⟩, hsess⟩
      | some u =>
          cases hc : check_password_hash u.password password with
          | false =>
              simp only [step, login_post, hf, hc, Bool.false_eq_true, if_false]
              exact ⟨⟨hposts, hcomments⟩, hsess⟩
          | true =>
              simp only [step, login_post, hf, hc, if_true]
              refine ⟨⟨hposts, hcomments⟩, ?_⟩
              intro uid huid
              injection huid with huid
              exact ⟨u, List.mem_of_find?_eq_some hf, huid⟩
  | logoutOp =>
      simp only [step, logout]
      exact ⟨⟨hposts, hcomments⟩, fun uid huid => Session.noConfusion huid⟩
  | newPost form today =>
      cases sess with
      | anonymous =>
          simp only [step, new_post_route_anonymous]
          exact ⟨⟨hposts, hcomments⟩, fun uid huid => Session.noConfusion huid⟩
      | loggedIn uid =>
          by_cases h1 : uid = 1
          · subst h1
            simp only [step, new_post_route_admin_run, add_new_post_run]
            cases form with
            | none => exact ⟨⟨hposts, hcomments⟩, hsess⟩
            | some f =>
                cases hdup : db.posts.any (fun p => p.title == f.title) with
                | true =>
                    simp only [hdup, if_true]
                    exact ⟨⟨hposts, hcomments⟩, hsess⟩
                | false =>
                    simp only [hdup, Bool.false_eq_true, if_false]
                    refine ⟨⟨?_, hcomments⟩, hsess⟩
                    intro p hp
                    rcases List.mem_append.mp hp with hold | hnew
                    · exact hposts p hold
                    · rcases List.mem_singleton.mp hnew with rfl
                      exact hsess 1 rfl
          · simp only [step, new_post_route_nonadmin _ _ _ h1]
            exact ⟨⟨hposts, hcomments⟩, hsess⟩
  | editPost post_id form =>
      simp only [step, edit_route_db_eq]
      exact ⟨⟨hposts, hcomments⟩, hsess⟩
  | deletePost post_id =>
      simp only [step, delete_route_db_eq]
      exact ⟨⟨hposts, hcomments⟩, hsess⟩
  | addComment post_id text valid =>
      cases sess with
      | anonymous =>
          simp only [step, show_post_post]
          exact ⟨⟨hposts, hcomments⟩, fun uid huid => Session.noConfusion huid⟩
      | loggedIn uid =>
          cases valid with
          | false =>
              simp only [step, show_post_post, Bool.false_eq_true, if_false]
              exact ⟨⟨hposts, hcomments⟩, hsess⟩
          | true =>
              simp only [step, show_post_post, if_true]
              refine ⟨⟨hposts, ?_⟩, hsess⟩
              intro c hc
              rcases List.mem_append.mp hc with hold | hnew
              · exact hcomments c hold
              · rcases List.mem_singleton.mp hnew with rfl
                exact hsess uid rfl

/-- The invariant is preserved along any sequence of requests. -/
theorem runOps_inv (ops : List Op) (st : ServerState) (h : Inv st) : Inv (runOps st ops) := by
  induction ops generalizing st with
  | nil => exact h
  | cons op ops ih => exact ih (step st op) (step_preserves_inv st op h)

/-- The initial state satisfies the invariant. -/
theorem initial_inv : Inv initialState := by
  refine ⟨⟨?_, ?_⟩, ?_⟩
  · intro p hp
    exact absurd hp (List.not_mem_nil p)
  · intro c hc
    exact absurd hc (List.not_mem_nil c)
  · intro uid huid
    exact Session.noConfusion huid

end Lemmas

/-- C6: a GET request to /login whose query string lacks the error parameter
raises an unhandled fault (BadRequestKeyError) instead of rendering the login
form; when the parameter is present the form is rendered with that message. -/
theorem login_get_requires_error_param :
    login_get none = Response.fault "BadRequestKeyError: error" ∧
    ∀ e : String, login_get (some e) = Response.render "login.html" (some e) :=
  ⟨rfl, fun _ => rfl⟩

/-- C8: an anonymous comment submission on any post is redirected to the
login page carrying an explanatory message, and the store (hence the set of
Comment records) is unchanged. -/
theorem anonymous_comment_redirects (db : DB) (post_id : Nat) (text : String) (valid : Bool) :
    show_post_post db .anonymous post_id text valid =
      (db, Response.redirectTo "login"
        (some "You need to logged first in in order to be able to add comments!")) :=
  rfl

/-- C7: a successful comment submission by the authenticated user uid on
post post_id appends exactly one Comment, whose author reference is uid and
whose parent-post reference is post_id; Users and Posts are untouched, and
the number of Comments on that post grows by exactly one. -/
theorem comment_submission_adds_one (db : DB) (uid post_id : Nat) (text : String) :
    (show_post_post db (.loggedIn uid) post_id text true).1.comments =
      db.comments ++
        [{ id := db.nextCommentId, author_id := uid, text := text, post_id := post_id }] ∧
    (show_post_post db (.loggedIn uid) post_id text true).1.posts = db.posts ∧
    (show_post_post db (.loggedIn uid) post_id text true).1.users = db.users ∧
    ((show_post_post db (.loggedIn uid) post_id text true).1.comments.filter
        (fun c => c.post_id == post_id)).length =
      (db.comments.filter (fun c => c.post_id == post_id)).length + 1 := by
  refine ⟨rfl, rfl, rfl, ?_⟩
  simp [show_post_post, List.filter_append]

/-- C9: the two login failure causes are distinguished: an unknown email and
a non-verifying password each redisplay the login form with their own
user-facing message, the two messages differ, and in both cases the session
is left exactly as it was (no association is established). -/
theorem login_failures_distinct (db : DB) (s : Session) (email password : String) :
    (db.users.find? (fun u => u.email == email) = none →
      login_post db s email password =
        (s, Response.render "login.html"
          (some "the Email you entered doesn\x27t exist, please try again!"))) ∧
    (∀ v : User, db.users.find? (fun u => u.email == email) = some v →
      check_password_hash v.password password = false →
      login_post db s email password =
        (s, Response.render "login.html" (some "Password Incorrect, Please try again!"))) ∧
    ("the Email you entered doesn\x27t exist, please try again!" : String) ≠
      "Password Incorrect, Please try again!" := by
  refine ⟨?_, ?_, by decide⟩
  · intro h
    simp [login_post, h]
  · intro v hv hc
    simp [login_post, hv, hc]

/-- Witness for C9: in the concrete store dbA, a login with an unknown email
and a login with a wrong password each produce their distinct message and
leave the session anonymous. -/
theorem login_failures_distinct_witness :
    login_post dbA .anonymous "b@x.com" "pw1" =
      (.anonymous, Response.render "login.html"
        (some "the Email you entered doesn\x27t exist, please try again!")) ∧
    login_post dbA .anonymous "a@x.com" "wrong" =
      (.anonymous, Response.render "login.html"
        (some "Password Incorrect, Please try again!")) :=
  ⟨(login_failures_distinct dbA .anonymous "b@x.com" "pw1").1 (by decide),
   (login_failures_distinct dbA .anonymous "a@x.com" "wrong").2.1 userA (by decide) (by decide)⟩

/-- C2: registering with an email that an existing User already holds leaves
the store (and session) unchanged and redisplays the login form with the
duplicate-email message; registering with a fresh email persists exactly one
new User record. -/
theorem register_email_unique (db : DB) (s : Session) (name password email : String)
    (salt : List Char) :
    ((∃ u ∈ db.users, u.email = email) →
      register_post db s name password email salt =
        (db, s, Response.render "login.html"
          (some "You have already signed up with that email, log in instead!"))) ∧
    ((∀ u ∈ db.users, u.email ≠ email) →
      (register_post db s name password email salt).1.users =
        db.users ++ [{ id := db.nextUserId, email := email,
                       password := generate_password_hash salt password, name := name }]) := by
  constructor
  · rintro ⟨u, hu, he⟩
    have hsome : (db.users.find? (fun v => v.email == email)).isSome := by
      rw [List.find?_isSome]
      exact ⟨u, hu, by simp [he]⟩
    obtain ⟨v, hv⟩ := Option.isSome_iff_exists.mp hsome
    simp [register_post, hv]
  · intro h
    have hnone : db.users.find? (fun v => v.email == email) = none := by
      rw [List.find?_eq_none]
      intro v hv
      simp [h v hv]
    simp [register_post, hnone]

/-- Witness for C2: in the concrete store dbA, re-registering a@x.com leaves
the store unchanged and shows the login form, while registering b@x.com adds
exactly that one User. -/
theorem register_email_unique_witness :
    register_post dbA .anonymous "B" "pw2" "a@x.com" "sb".data =
      (dbA, .anonymous, Response.render "login.html"
        (some "You have already signed up with that email, log in instead!")) ∧
    (register_post dbA .anonymous "B" "pw2" "b@x.com" "sb".data).1.users =
      dbA.users ++ [{ id := dbA.nextUserId, email := "b@x.com",
                      password := generate_password_hash "sb".data "pw2", name := "B" }] :=
  ⟨(register_email_unique dbA .anonymous "B" "pw2" "a@x.com" "sb".data).1
      ⟨userA, by decide, by decide⟩,
   (register_email_unique dbA .anonymous "B" "pw2" "b@x.com" "sb".data).2
      (by intro u hu; fin_cases hu; decide)⟩

/-- C3: immediately after a successful registration with a fresh email, a
login with the same email and the same raw password verifies the stored
salted hash and establishes the new session, while a login with any other
password string fails with the wrong-password message and establishes no
session. -/
theorem register_login_roundtrip (db : DB) (s s₂ : Session) (name password email : String)
    (salt : List Char) (hfresh : ∀ u ∈ db.users, u.email ≠ email) :
    login_post (register_post db s name password email salt).1 s₂ email password =
      (Session.loggedIn db.nextUserId, Response.redirectTo "get_all_posts" none) ∧
    (∀ p : String, p ≠ password →
      login_post (register_post db s name password email salt).1 s₂ email p =
        (s₂, Response.render "login.html" (some "Password Incorrect, Please try again!"))) := by
  have hnone : db.users.find? (fun v => v.email == email) = none := by
    rw [List.find?_eq_none]
    intro v hv
    simp [hfresh v hv]
  have hfind : (register_post db s name password email salt).1.users.find?
      (fun v => v.email == email) =
      some { id := db.nextUserId, email := email,
             password := generate_password_hash salt password, name := name } := by
    simp [register_post, hnone, List.find?_append]
  constructor
  · simp [login_post, hfind, check_password_hash, generate_password_hash]
  · intro p hp
    have hdig : ¬ (salt ++ password.data = salt ++ p.data) := by
      intro hEq
      exact hp (String.ext (List.append_cancel_left hEq)).symm
    simp [login_post, hfind, check_password_hash, generate_password_hash, hdig]

/-- Witness for C3: registering b@x.com with password pw2 in the concrete
store dbA, the same password then logs in as the new user (id 2) and the
password pw3 is rejected. -/
theorem register_login_roundtrip_witness :
    login_post (register_post dbA .anonymous "B" "pw2" "b@x.com" "sb".data).1
        .anonymous "b@x.com" "pw2" =
      (Session.loggedIn dbA.nextUserId, Response.redirectTo "get_all_posts" none) ∧
    login_post (register_post dbA .anonymous "B" "pw2" "b@x.com" "sb".data).1
        .anonymous "b@x.com" "pw3" =
      (.anonymous, Response.render "login.html"
        (some "Password Incorrect, Please try again!")) :=
  ⟨(register_login_roundtrip dbA .anonymous .anonymous "B" "pw2" "b@x.com" "sb".data
      (by intro u hu; fin_cases hu; decide)).1,
   (register_login_roundtrip dbA .anonymous .anonymous "B" "pw2" "b@x.com" "sb".data
      (by intro u hu; fin_cases hu; decide)).2 "pw3" (by decide)⟩

/-- C1 counterexample: the authenticated non-admin user 2 requesting
/edit-post/1 does not receive a forbidden (403) result as the claim states:
the route fails with the TypeError arity fault; and even the admin (id 1) is
not allowed to perform the delete, getting the same fault. -/
theorem admin_gate_403_counterexample :
    (edit_post_route.call req0 dbTwo (.loggedIn 2) [1]).2 =
      Response.fault "TypeError: argument count mismatch" ∧
    (edit_post_route.call req0 dbTwo (.loggedIn 2) [1]).2 ≠ Response.httpAbort 403 ∧
    (delete_post_route.call req0 dbTwo (.loggedIn 1) [1]).2 =
      Response.fault "TypeError: argument count mismatch" := by
  refine ⟨rfl, by decide, rfl⟩

/-- C1 (amended): on the create route /new-post the claim holds: the handler
body runs iff the current user is authenticated with the bootstrap id 1;
every other authenticated user receives 403 with the store unchanged, and an
anonymous user is rejected with 401 with the store unchanged. The edit and
delete routes never perform their operation for any caller: the store is
unchanged there as well (the arity fault stops them before authorization). -/
theorem post_mutation_admin_gate (req : Request) (db : DB) (s : Session) (post_id : Nat) :
    new_post_route.call req db (.loggedIn 1) [] = add_new_post_run req db (.loggedIn 1) [] ∧
    (∀ uid : Nat, uid ≠ 1 →
      new_post_route.call req db (.loggedIn uid) [] = (db, Response.httpAbort 403)) ∧
    new_post_route.call req db .anonymous [] = (db, Response.httpAbort 401) ∧
    (edit_post_route.call req db s [post_id]).1 = db ∧
    (delete_post_route.call req db s [post_id]).1 = db := by
  refine ⟨?_, ?_, rfl,
    guarded_call_db_eq edit_post rfl rfl req db s [post_id],
    guarded_call_db_eq delete_post rfl rfl req db s [post_id]⟩
  · simp [new_post_route, login_required, admin_only, add_new_post, Handler.call]
  · intro uid h
    simp [new_post_route, login_required, admin_only, Handler.call, h]

/-- Witness for C1 (amended): the concrete authenticated user 2 on /new-post
receives 403 and the store dbTwo is unchanged. -/
theorem post_mutation_admin_gate_witness :
    new_post_route.call req0 dbTwo (.loggedIn 2) [] = (dbTwo, Response.httpAbort 403) :=
  (post_mutation_admin_gate req0 dbTwo (.loggedIn 2) 1).2.1 2 (by decide)

/-- C5: the admin_only wrapper declares zero parameters while edit_post and
delete_post each require the post_id URL argument, so requests to
/edit-post/<id> and /delete/<id> never run the handler bodies and never
modify the store: every authenticated caller (any uid, including the admin
id 1) receives the TypeError raised by the argument count mismatch, and an
anonymous caller is stopped earlier by login_required with 401. -/
theorem edit_delete_arity_fault (req : Request) (db : DB) (s : Session) (post_id : Nat) :
    (admin_only edit_post).arity = 0 ∧ edit_post.arity = 1 ∧
    (admin_only delete_post).arity = 0 ∧ delete_post.arity = 1 ∧
    (edit_post_route.call req db s [post_id]).1 = db ∧
    (delete_post_route.call req db s [post_id]).1 = db ∧
    (∀ uid : Nat, s = .loggedIn uid →
      (edit_post_route.call req db s [post_id]).2 =
        Response.fault "TypeError: argument count mismatch" ∧
      (delete_post_route.call req db s [post_id]).2 =
        Response.fault "TypeError: argument count mismatch") ∧
    (s = .anonymous →
      (edit_post_route.call req db s [post_id]).2 = Response.httpAbort 401 ∧
      (delete_post_route.call req db s [post_id]).2 = Response.httpAbort 401) := by
  refine ⟨rfl, rfl, rfl, rfl,
    guarded_call_db_eq edit_post rfl rfl req db s [post_id],
    guarded_call_db_eq delete_post rfl rfl req db s [post_id], ?_, ?_⟩
  · rintro uid rfl
    exact ⟨guarded_call_loggedIn_fault edit_post req db uid post_id,
           guarded_call_loggedIn_fault delete_post req db uid post_id⟩
  · rintro rfl
    exact ⟨guarded_call_anonymous edit_post req db [post_id],
           guarded_call_anonymous delete_post req db [post_id]⟩

/-- Witness for C5: the admin itself (id 1) gets the TypeError fault on both
routes in the concrete store dbTwo. -/
theorem edit_delete_arity_fault_witness :
    (edit_post_route.call req0 dbTwo (.loggedIn 1) [1]).2 =
      Response.fault "TypeError: argument count mismatch" ∧
    (delete_post_route.call req0 dbTwo (.loggedIn 1) [1]).2 =
      Response.fault "TypeError: argument count mismatch" :=
  (edit_delete_arity_fault req0 dbTwo (.loggedIn 1) 1).2.2.2.2.2.2.1 1 rfl

/-- C10: when the delete handler body executes on a stored post p (found by
its id), p no longer appears in the post listing, every post with a
different id remains listed, and the handler redirects to the listing. -/
theorem delete_removes_from_listing (req : Request) (db : DB) (s : Session) (p : BlogPost)
    (hp : p ∈ db.posts) :
    p ∉ get_all_posts (delete_post_run req db s [p.id]).1 ∧
    (∀ q ∈ db.posts, q.id ≠ p.id → q ∈ get_all_posts (delete_post_run req db s [p.id]).1) ∧
    (delete_post_run req db s [p.id]).2 = Response.redirectTo "get_all_posts" none := by
  have hsome : (db.posts.find? (fun q => q.id == p.id)).isSome := by
    rw [List.find?_isSome]
    exact ⟨p, hp, by simp⟩
  obtain ⟨v, hv⟩ := Option.isSome_iff_exists.mp hsome
  refine ⟨?_, ?_, ?_⟩
  · simp [delete_post_run, hv, get_all_posts, List.mem_filter]
  · intro q hq hne
    simp [delete_post_run, hv, get_all_posts, List.mem_filter, hq, hne]
  · simp [delete_post_run, hv]

/-- Witness for C10: deleting postP from the concrete store dbTwo removes it
from the listing while postQ stays listed. -/
theorem delete_removes_from_listing_witness :
    postP ∉ get_all_posts (delete_post_run req0 dbTwo .anonymous [postP.id]).1 ∧
    postQ ∈ get_all_posts (delete_post_run req0 dbTwo .anonymous [postP.id]).1 :=
  ⟨(delete_removes_from_listing req0 dbTwo .anonymous postP (by simp [dbTwo])).1,
   (delete_removes_from_listing req0 dbTwo .anonymous postP (by simp [dbTwo])).2.1 postQ
      (by simp [dbTwo]) (by decide)⟩

/-- C4 counterexample: after the concrete two-request sequence "register
user A, then (still logged in) submit a comment on post 5", the stored
Comment's parent-post reference names no existing BlogPost — the comment
handler never looks the post up — so the referential-integrity property of
the claim fails on a reachable state. -/
theorem ref_integrity_counterexample :
    refIntegrity (runOps initialState
      [.registerOp "A" "pw1" "a@x.com" "sa".data,
       .addComment 5 "hi" true]).db = false := by
  rfl

/-- C4 (amended): after every sequence of in-scope operations from the
initial state, every stored Post's author reference and every stored
Comment's author reference name an existing User; a Comment's parent-post
reference, however, is not guaranteed to name an existing Post, because
comment submission records the requested id without checking the post
exists. -/
theorem author_refs_always_ok (ops : List Op) :
    authorRefsOk (runOps initialState ops).db :=
  (runOps_inv ops initialState initial_inv).1

end AngelaBlog
